import Mathlib

/-!
Shallow embedding of the clinic token backend (`api/models.py`, `api/views.py`).

Conventions of the embedding:
* times of day are minutes after midnight (`Nat`); absolute instants are
  minutes since an epoch (`Int`), so a date `d` paired with a time-of-day `m`
  is the instant `d * 1440 + m`;
* dates are abstract day indices (`Nat`), the result of a successful
  `datetime.strptime(date_str, '%Y-%m-%d')`; the `None` return of
  `_get_available_slots_for_doctor` on an unparsable date is modelled by the
  `Option` wrapper `getAvailableSlotsForDoctor`;
* database rows are Lean structures; a table is a `List`; `ForeignKey`
  columns are ids (`Nat`), nullable columns are `Option`;
* Python truthiness is modelled where the source relies on it: `None` and
  `0`/`0.0`/`""` are falsy, while a `datetime.time` object is always truthy
  in Python ≥ 3.5, so `not self.appointment_time` is `= none` on the
  `Option` field;
* request times (`'%H:%M'` strings) are taken in their canonical
  zero-padded form, so parsing and `strftime` round-trip through `fmtHM`;
* floating point arithmetic (`haversine_distance`) is modelled over `ℝ`.
-/

/-- A row of the `api_token` table (`models.Token`).  `pk = none` means the
instance has not been persisted yet (`self.pk` is falsy in `save`). -/
structure Token where
  pk : Option Nat
  patient : Nat
  doctor : Nat
  clinic : Option Nat
  token_number : Option String
  created_at : Int
  completed_at : Option Int
  date : Nat
  status : String
  appointment_time : Option Nat
  distance_km : Option ℝ

/-- A row of `models.Patient` (only the fields the IVR flow reads). -/
structure Patient where
  id : Nat
  name : String
  age : Int
  phone_number : Option String

/-- A row of `models.Doctor` (only the fields the views read). -/
structure Doctor where
  id : Nat
  name : String
  clinic : Option Nat

/-- A row of `models.Clinic` (only the coordinate fields `ConfirmArrivalView`
reads). -/
structure Clinic where
  latitude : Option ℝ
  longitude : Option ℝ

/-! ## `models.Token.save` -/

/-- Python `str.isdigit()` on the ASCII strings the app produces: nonempty
and all digits. -/
def pyIsDigit (s : String) : Bool :=
  s.length > 0 && s.toList.all Char.isDigit

/-- Python `int(s)` for an all-digit string. -/
def strToNat (s : String) : Nat :=
  s.toList.foldl (fun acc c => acc * 10 + (c.toNat - '0'.toNat)) 0

/-- Lexicographic comparison of character lists: SQLite's default BINARY
collation is `memcmp` on the UTF-8 bytes, which on code points is exactly
this order. -/
def charsLt : List Char → List Char → Bool
  | [], [] => false
  | [], _ :: _ => true
  | _ :: _, [] => false
  | a :: as, b :: bs =>
    if a < b then true else if b < a then false else charsLt as bs

/-- `a < b` under SQLite's BINARY TEXT collation. -/
def strLt (a b : String) : Bool := charsLt a.data b.data

/-- One `token_number` value is ordered before another in the
`order_by('-token_number')` scan: SQLite compares TEXT by bytes and places
NULLs last in a DESC ordering, so `some` beats `none` and larger strings
beat smaller ones. -/
def tokenNumBetter (a b : Option String) : Bool :=
  match a, b with
  | some x, some y => strLt y x
  | some _, none => true
  | none, _ => false

/-- `token_number` of `....order_by('-token_number').first()` over a list of
candidate values: the maximum under `tokenNumBetter`; `none` when the list
is empty or all values are NULL. -/
def maxTokenNumber (l : List (Option String)) : Option String :=
  l.foldl (fun acc x => if tokenNumBetter x acc then x else acc) none

/-- The filter of `models.Token.save`:
`Token.objects.filter(clinic=self.clinic, date=self.date,
appointment_time__isnull=True)`. -/
def walkInMatch (clinic : Option Nat) (date : Nat) (t : Token) : Bool :=
  t.clinic == clinic && t.date == date && t.appointment_time == none

/-- The token number `models.Token.save` assigns to a fresh walk-in token:
take the `order_by('-token_number').first()` row of the per-clinic per-day
walk-in filter, read `last_token_num` from it when its `token_number` is
truthy and `isdigit()` (else 0), and return `str(last_token_num + 1)`. -/
def nextTokenNumber (db : List Token) (clinic : Option Nat) (date : Nat) :
    String :=
  let last := maxTokenNumber ((db.filter (walkInMatch clinic date)).map
    (·.token_number))
  let last_token_num : Nat :=
    match last with
    | some s => if s ≠ "" && pyIsDigit s then strToNat s else 0
    | none => 0
  toString (last_token_num + 1)

/-- First mutation of `models.Token.save`:
`if self.doctor and not self.clinic: self.clinic = self.doctor.clinic`
(the doctor FK is non-nullable and ids are nonzero, so `self.doctor` is
truthy). -/
def saveClinicStep (doctorClinic : Nat → Option Nat) (t : Token) : Token :=
  if t.clinic = none then { t with clinic := doctorClinic t.doctor } else t

/-- Second mutation of `models.Token.save`: auto-number a fresh walk-in
token (`not self.pk and not self.appointment_time and self.token_number is
None`). -/
def saveNumberStep (db : List Token) (t : Token) : Token :=
  if t.pk = none ∧ t.appointment_time = none ∧ t.token_number = none then
    { t with token_number := some (nextTokenNumber db t.clinic t.date) }
  else t

/-- Third mutation of `models.Token.save`: stamp `completed_at` on a
completed token that lacks one. -/
def saveCompletedStep (now : Int) (t : Token) : Token :=
  if t.status = "completed" ∧ t.completed_at = none then
    { t with completed_at := some now }
  else t

/-- `models.Token.save` as a transformer of the in-memory instance: its
three sequential mutations of `self`.  `db` is the table the numbering
query runs against, `doctorClinic` the `Doctor.clinic` column, `now` the
value of `timezone.now()`. -/
def tokenSave (db : List Token) (doctorClinic : Nat → Option Nat) (now : Int)
    (t : Token) : Token :=
  saveCompletedStep now (saveNumberStep db (saveClinicStep doctorClinic t))

/-- The next auto primary key the database hands out on INSERT. -/
def freshPk (db : List Token) : Nat :=
  db.foldl (fun a t => max a (t.pk.getD 0)) 0 + 1

/-- `Token.objects.create(...)`: run `save` on a pk-less instance, then
INSERT it with a fresh primary key; returns the inserted row and the new
table. -/
def tokenCreate (db : List Token) (doctorClinic : Nat → Option Nat)
    (now : Int) (t : Token) : Token × List Token :=
  let saved := tokenSave db doctorClinic now { t with pk := none }
  let inserted := { saved with pk := some (freshPk db) }
  (inserted, db ++ [inserted])

/-- Violation of the model's `unique_together ('doctor', 'date',
'appointment_time')` when inserting `t` into `db`: a row with the same
doctor, date and (non-NULL — SQL UNIQUE treats NULLs as distinct)
appointment time already exists. -/
def violatesDoctorSlotUnique (db : List Token) (t : Token) : Bool :=
  db.any fun u => u.doctor == t.doctor && u.date == t.date &&
    u.appointment_time == t.appointment_time && u.appointment_time != none

/-! ## `_get_available_slots_for_doctor` -/

/-- The `while current_time < end_datetime` loop of
`_get_available_slots_for_doctor`, with the source's fixed
`slot_duration = 15` minutes.  `fuel` bounds the number of iterations (the
loop advances `cur` by 15 each round, so `stop` rounds more than
suffice); structural recursion on it keeps the loop computable by the
kernel. -/
def buildSlots : Nat → Nat → Nat → List Nat
  | 0, _, _ => []
  | fuel + 1, cur, stop =>
    if cur < stop then cur :: buildSlots fuel (cur + 15) stop else []

/-- `all_slots`: the grid from `time(9, 0)` up to (excluding) `time(17, 0)`
in 15-minute steps. -/
def allSlots : List Nat := buildSlots (17 * 60) (9 * 60) (17 * 60)

/-- Membership in the `booked_tokens` queryset:
`Token.objects.filter(doctor_id=.., date=.., appointment_time__isnull=False)
.exclude(status__in=['cancelled', 'skipped'])`. -/
def isBookedTokenRow (did d : Nat) (t : Token) : Bool :=
  t.doctor == did && t.date == d && t.appointment_time != none &&
    !(t.status == "cancelled" || t.status == "skipped")

/-- `booked_slots`: the appointment times of the booked queryset. -/
def bookedSlots (db : List Token) (did d : Nat) : List Nat :=
  (db.filter (isBookedTokenRow did d)).filterMap (·.appointment_time)

/-- `available_slots` (as minutes): the grid minus the booked times. -/
def availableSlotsMinutes (db : List Token) (did d : Nat) : List Nat :=
  allSlots.filter (fun s => !(bookedSlots db did d).contains s)

/-- Two-digit zero padding of `strftime`. -/
def pad2 (n : Nat) : String :=
  if n < 10 then "0" ++ toString n else toString n

/-- `slot.strftime('%H:%M')` on a minutes-after-midnight value. -/
def fmtHM (m : Nat) : String :=
  pad2 (m / 60) ++ ":" ++ pad2 (m % 60)

/-- `_get_available_slots_for_doctor` after a successful date parse: the
formatted available slots. -/
def availableSlotsForDoctor (db : List Token) (did d : Nat) : List String :=
  (availableSlotsMinutes db did d).map fmtHM

/-- `_get_available_slots_for_doctor` including the `except ValueError:
return None` branch: `d` is the result of parsing the date string. -/
def getAvailableSlotsForDoctor (db : List Token) (did : Nat)
    (d : Option Nat) : Option (List String) :=
  match d with
  | none => none
  | some d => some (availableSlotsForDoctor db did d)

/-! ## Status queries shared by the booking views -/

/-- The per-day active-token check of `PatientCreateTokenView.post` and
`TokenListCreate.post`: `Token.objects.filter(patient=.., date=..)
.exclude(status__in=['completed', 'cancelled', 'skipped']).exists()`. -/
def activeForDay (db : List Token) (pid d : Nat) : Bool :=
  db.any fun t => t.patient == pid && t.date == d &&
    !(t.status == "completed" || t.status == "cancelled" ||
      t.status == "skipped")

/-- The any-day active-token check of `create_and_speak_token`:
`Token.objects.filter(patient=..).exclude(status__in=['completed',
'cancelled', 'skipped']).exists()`. -/
def hasActiveAnyDay (db : List Token) (pid : Nat) : Bool :=
  db.any fun t => t.patient == pid &&
    !(t.status == "completed" || t.status == "cancelled" ||
      t.status == "skipped")

/-! ## `PatientCreateTokenView.post` -/

/-- Result of a creation endpoint: `error` is an early-return error
response; otherwise `token` is the created row and `db` the new table. -/
structure CreateResult where
  isError : Bool
  token : Option Token
  db : List Token

/-- `PatientCreateTokenView.post` after successful parsing of the date and
time and the doctor lookup: reject past dates, reject a second active
booking for that day, reject a slot the availability helper does not list,
otherwise create a `status='waiting'` appointment token (time slot set,
`token_number` left NULL). -/
def patientCreateTokenPost (db : List Token) (doctorClinic : Nat → Option Nat)
    (now : Int) (pid : Nat) (doctor : Doctor) (apptDate apptTime : Nat)
    (today : Nat) : CreateResult :=
  if apptDate < today then ⟨true, none, db⟩
  else if activeForDay db pid apptDate then ⟨true, none, db⟩
  else if ¬ (fmtHM apptTime ∈ availableSlotsForDoctor db doctor.id apptDate)
    then ⟨true, none, db⟩
  else
    let r := tokenCreate db doctorClinic now
      { pk := none, patient := pid, doctor := doctor.id,
        clinic := doctor.clinic, token_number := none, created_at := now,
        completed_at := none, date := apptDate, status := "waiting",
        appointment_time := some apptTime, distance_km := none }
    ⟨false, some r.1, r.2⟩

/-! ## `TokenListCreate.post` (receptionist) -/

/-- The slot check of `TokenListCreate.post`: when an appointment time was
supplied it must be listed by `_get_available_slots_for_doctor` for today;
a walk-in (no time) skips the check. -/
def receptionistSlotOk (db : List Token) (doctor : Doctor)
    (appointment_time : Option Nat) (today : Nat) : Bool :=
  match appointment_time with
  | none => true
  | some m => (availableSlotsForDoctor db doctor.id today).contains (fmtHM m)

/-- `TokenListCreate.post` after authentication and the patient
`update_or_create`: check the slot, reject a second active token for
today, then create with
`status = 'waiting' if appointment_time else 'confirmed'`. -/
def receptionistCreateToken (db : List Token) (doctorClinic : Nat → Option Nat)
    (now : Int) (pid : Nat) (doctor : Doctor)
    (appointment_time : Option Nat) (today : Nat) : CreateResult :=
  if receptionistSlotOk db doctor appointment_time today = false then
    ⟨true, none, db⟩
  else if activeForDay db pid today then ⟨true, none, db⟩
  else
    let token_status := if appointment_time ≠ none then "waiting"
                        else "confirmed"
    let r := tokenCreate db doctorClinic now
      { pk := none, patient := pid, doctor := doctor.id,
        clinic := doctor.clinic, token_number := none, created_at := now,
        completed_at := none, date := today, status := token_status,
        appointment_time := appointment_time, distance_km := none }
    ⟨false, some r.1, r.2⟩

/-! ## `TokenUpdateStatusView.patch` -/

/-- Result of the status patch: the (possibly unchanged) row as persisted. -/
structure PatchResult where
  isError : Bool
  token : Token

/-- The view's `allowed_statuses` list. -/
def allowedStatuses : List String :=
  ["waiting", "confirmed", "completed", "skipped", "cancelled",
   "in_consultancy"]

/-- `TokenUpdateStatusView.patch` on a resolved instance: an absent or
unlisted `status` is rejected, a `completed` or `cancelled` instance is
frozen, otherwise `completed_at` is stamped (for `completed`) or reset to
NULL, the status is written, and the instance is saved with
`update_fields=['status', 'completed_at']` — so only those two columns of
the row change. -/
def tokenUpdateStatusPatch (db : List Token) (doctorClinic : Nat → Option Nat)
    (now : Int) (inst : Token) (new_status : Option String) : PatchResult :=
  match new_status with
  | none => ⟨true, inst⟩
  | some ns =>
    if ¬ ns ∈ allowedStatuses then ⟨true, inst⟩
    else if inst.status = "completed" ∨ inst.status = "cancelled" then
      ⟨true, inst⟩
    else
      let i1 := if ns = "completed" then { inst with completed_at := some now }
                else { inst with completed_at := none }
      let i2 := { i1 with status := ns }
      let saved := tokenSave db doctorClinic now i2
      ⟨false, { inst with status := saved.status,
                          completed_at := saved.completed_at }⟩

/-! ## IVR booking (`create_and_speak_token`,
`_find_next_available_slot_for_doctor`) -/

/-- The `for i in range(7)` loop of `_find_next_available_slot_for_doctor`:
on the first (today's) iteration only slots at or after the current time
count; on later days the first available slot wins.  `rem` is the number of
remaining iterations. -/
def findSlotLoop (db : List Token) (did today nowMin cur : Nat) :
    Nat → Option (Nat × Nat)
  | 0 => none
  | rem + 1 =>
    let av := availableSlotsMinutes db did cur
    if cur = today then
      match av.filter (fun s => nowMin ≤ s) with
      | s :: _ => some (cur, s)
      | [] => findSlotLoop db did today nowMin (cur + 1) rem
    else
      match av with
      | s :: _ => some (cur, s)
      | [] => findSlotLoop db did today nowMin (cur + 1) rem

/-- `_find_next_available_slot_for_doctor`: scan today and the next six
days for the earliest bookable slot. -/
def findNextAvailableSlot (db : List Token) (did today nowMin : Nat) :
    Option (Nat × Nat) :=
  findSlotLoop db did today nowMin today 7

/-- Python `phone[-4:]`. -/
def lastFour (s : String) : String :=
  String.mk (s.data.drop (s.data.length - 4))

/-- `doctor.name[0].upper() if doctor.name else "X"` (an empty name is
falsy). -/
def doctorInitial (name : String) : String :=
  match name.data with
  | [] => "X"
  | c :: _ => String.mk [c.toUpper]

/-- `Patient.objects.filter(phone_number=..).first()`. -/
def lookupPatientByPhone (ps : List Patient) (phone : String) :
    Option Patient :=
  (ps.filter (fun p => p.phone_number == some phone)).head?

/-- The next auto primary key of the patient table. -/
def freshPatientId (ps : List Patient) : Nat :=
  ps.foldl (fun a p => max a p.id) 0 + 1

/-- The tokens and patients tables the IVR flow touches. -/
structure IvrState where
  tokens : List Token
  patients : List Patient

/-- Outcome of `create_and_speak_token`: the caller is refused because of an
existing active appointment, no slot exists within seven days, or a token
is booked. -/
inductive IvrOutcome
  | alreadyActive
  | noSlots
  | booked (t : Token)

/-- The patient-resolution preamble of `create_and_speak_token`:
`filter(phone_number=..).first()` and, when that finds nothing,
`get_or_create` of an `IVR Patient <last four digits>` record. -/
def ivrResolvePatient (ps : List Patient) (phone : String) :
    Patient × List Patient :=
  match lookupPatientByPhone ps phone with
  | some p => (p, ps)
  | none =>
    let p : Patient := { id := freshPatientId ps,
                         name := "IVR Patient " ++ lastFour phone,
                         age := 0, phone_number := some phone }
    (p, ps ++ [p])

/-- Steps 2–3 of `create_and_speak_token`: find the next available slot and
book a `status='waiting'` token numbered `<doctor initial>-<slot index>`. -/
def ivrBookSlot (tokens : List Token) (doctor : Doctor) (pid : Nat)
    (today nowMin : Nat) (now : Int) : IvrOutcome × List Token :=
  match findNextAvailableSlot tokens doctor.id today nowMin with
  | none => (IvrOutcome.noSlots, tokens)
  | some (d, m) =>
    let slot_number := (m - 9 * 60) / 15 + 1
    let formatted_token_number :=
      doctorInitial doctor.name ++ "-" ++ toString slot_number
    let r := tokenCreate tokens (fun _ => doctor.clinic) now
      { pk := none, patient := pid, doctor := doctor.id,
        clinic := doctor.clinic, token_number := some formatted_token_number,
        created_at := now, completed_at := none, date := d,
        status := "waiting", appointment_time := some m,
        distance_km := none }
    (IvrOutcome.booked r.1, r.2)

/-- `create_and_speak_token`: resolve (or create) the patient from the
caller id, refuse when an active token exists on any day, otherwise search
for a slot and book. -/
def createAndSpeakToken (st : IvrState) (doctor : Doctor) (phone : String)
    (today nowMin : Nat) (now : Int) : IvrOutcome × IvrState :=
  let pp := ivrResolvePatient st.patients phone
  if hasActiveAnyDay st.tokens pp.1.id then
    (IvrOutcome.alreadyActive, { st with patients := pp.2 })
  else
    let r := ivrBookSlot st.tokens doctor pp.1.id today nowMin now
    (r.1, { tokens := r.2, patients := pp.2 })

/-! ## `ConfirmArrivalView.post` and `haversine_distance` -/

open Classical

/-- `math.radians`. -/
noncomputable def radians (x : ℝ) : ℝ := x * Real.pi / 180

/-- `math.atan2` (two-argument arctangent, IEEE conventions on the reals;
`atan2 0 0 = 0` as in CPython). -/
noncomputable def atan2 (y x : ℝ) : ℝ :=
  if 0 < x then Real.arctan (y / x)
  else if x < 0 then
    (if 0 ≤ y then Real.arctan (y / x) + Real.pi
     else Real.arctan (y / x) - Real.pi)
  else
    (if 0 < y then Real.pi / 2 else if y < 0 then -(Real.pi / 2) else 0)

/-- `haversine_distance` of `views.py`: great-circle distance on an Earth of
radius 6371 km. -/
noncomputable def haversine_distance (lat1 lon1 lat2 lon2 : ℝ) : ℝ :=
  let R : ℝ := 6371.0
  let lat1_rad := radians lat1
  let lon1_rad := radians lon1
  let lat2_rad := radians lat2
  let lon2_rad := radians lon2
  let dlon := lon2_rad - lon1_rad
  let dlat := lat2_rad - lat1_rad
  let a := Real.sin (dlat / 2) ^ 2 +
    Real.cos lat1_rad * Real.cos lat2_rad * Real.sin (dlon / 2) ^ 2
  R * (2 * atan2 (Real.sqrt a) (Real.sqrt (1 - a)))

/-- Python `round(x, 2)` (round half to even at two decimals). -/
noncomputable def pyRound2 (x : ℝ) : ℝ :=
  ((if x * 100 - ⌊x * 100⌋ = 1 / 2 then
      (if ⌊x * 100⌋ % 2 = 0 then ⌊x * 100⌋ else ⌊x * 100⌋ + 1)
    else round (x * 100) : ℤ) : ℝ) / 100

/-- The `Token.objects.get(patient=.., date=today, status='waiting')`
filter of `ConfirmArrivalView.post`. -/
def isWaitingTodayRow (pid today : Nat) (t : Token) : Bool :=
  t.patient == pid && t.date == today && t.status == "waiting"

/-- Persist an updated row: the UPDATE of `token.save()` replaces the row
with the same primary key. -/
def updateByPk (db : List Token) (t : Token) : List Token :=
  db.map (fun u => if u.pk == t.pk then t else u)

/-- The distinct responses of `ConfirmArrivalView.post`. -/
inductive ArrivalResp
  | missingLocation
  | noPatient
  | windowError
  | clinicNotConfigured
  | tooFar
  | arrivalConfirmed
  | noActiveToken
  | multipleTokens
deriving DecidableEq

/-- `ConfirmArrivalView.post`.  `not all([user_lat, user_lon])` and
`not all([clinic.latitude, clinic.longitude])` are Python truthiness
checks, so a missing or `0.0` coordinate takes the error branch.  The
unique `'waiting'` token for today is located, the arrival window enforced
for appointment tokens, the distance computed and stored (rounded), and the
status set to `'confirmed'` only within 1 km. -/
noncomputable def confirmArrivalPost (db : List Token)
    (doctorClinic : Nat → Option Nat) (clinicOf : Option Nat → Clinic)
    (hasPatient : Bool) (pid : Nat) (user_lat user_lon : Option ℝ)
    (today : Nat) (nowAbs : Int) : ArrivalResp × List Token :=
  if user_lat = none ∨ user_lat = some 0 ∨
     user_lon = none ∨ user_lon = some 0 then
    (ArrivalResp.missingLocation, db)
  else if ¬ hasPatient then (ArrivalResp.noPatient, db)
  else
    match db.filter (isWaitingTodayRow pid today) with
    | [] => (ArrivalResp.noActiveToken, db)
    | [t] =>
      let windowOk :=
        match t.appointment_time with
        | none => True
        | some m =>
          let appt : Int := (t.date : Int) * 1440 + m
          appt - 20 ≤ nowAbs ∧ nowAbs ≤ appt + 15
      if ¬ windowOk then (ArrivalResp.windowError, db)
      else
        let clinic := clinicOf t.clinic
        if clinic.latitude = none ∨ clinic.latitude = some 0 ∨
           clinic.longitude = none ∨ clinic.longitude = some 0 then
          (ArrivalResp.clinicNotConfigured, db)
        else
          let distance := haversine_distance (user_lat.getD 0)
            (user_lon.getD 0) (clinic.latitude.getD 0)
            (clinic.longitude.getD 0)
          let t1 := { t with distance_km := some (pyRound2 distance) }
          if 1 < distance then
            (ArrivalResp.tooFar,
              updateByPk db (tokenSave db doctorClinic nowAbs t1))
          else
            (ArrivalResp.arrivalConfirmed,
              updateByPk db (tokenSave db doctorClinic nowAbs
                { t1 with status := "confirmed" }))
    | _ :: _ :: _ => (ArrivalResp.multipleTokens, db)

/-! ## Concrete fixtures for counterexamples and witnesses -/

/-- A persisted walk-in token of clinic 1 on day 0, numbered `num`. -/
def walkInTok (n : Nat) (num : String) : Token :=
  { pk := some n, patient := n, doctor := 1, clinic := some 1,
    token_number := some num, created_at := 0, completed_at := none,
    date := 0, status := "waiting", appointment_time := none,
    distance_km := none }

/-- Ten walk-in tokens of one clinic-day, numbered "1" … "10" — exactly the
numbers the auto-numbering itself hands out over ten issuances. -/
def tenWalkIns : List Token :=
  [walkInTok 1 "1", walkInTok 2 "2", walkInTok 3 "3", walkInTok 4 "4",
   walkInTok 5 "5", walkInTok 6 "6", walkInTok 7 "7", walkInTok 8 "8",
   walkInTok 9 "9", walkInTok 10 "10"]

/-- A fresh (unsaved) walk-in token for the same clinic-day: no pk, no
appointment time, no preset number. -/
def freshWalkIn : Token :=
  { pk := none, patient := 11, doctor := 1, clinic := some 1,
    token_number := none, created_at := 0, completed_at := none,
    date := 0, status := "waiting", appointment_time := none,
    distance_km := none }

/-- The `Doctor.clinic` column of the fixtures: every doctor works at
clinic 1. -/
def dcFix : Nat → Option Nat := fun _ => some 1

/-- A fixture doctor. -/
def docFix : Doctor := { id := 1, name := "Asha", clinic := some 1 }

/-- A cancelled appointment token of doctor 1 on day 5 at 09:00. -/
def cancelledTok : Token :=
  { pk := some 1, patient := 2, doctor := 1, clinic := some 1,
    token_number := some "A-1", created_at := 0, completed_at := none,
    date := 5, status := "cancelled", appointment_time := some (9 * 60),
    distance_km := none }

/-- A completed token (fixture for the frozen-status theorems). -/
def completedTok : Token :=
  { pk := some 3, patient := 4, doctor := 1, clinic := some 1,
    token_number := some "2", created_at := 0, completed_at := some 100,
    date := 0, status := "completed", appointment_time := none,
    distance_km := none }

/-- A waiting walk-in token of patient 1 for day 0 (fixture for the arrival
and IVR theorems). -/
def waitingTok : Token :=
  { pk := some 5, patient := 1, doctor := 1, clinic := some 1,
    token_number := some "1", created_at := 0, completed_at := none,
    date := 0, status := "waiting", appointment_time := none,
    distance_km := none }

/-- The patient table of the IVR fixture: patient 1 owns the caller's
phone number. -/
def ivrPatientFix : Patient :=
  { id := 1, name := "Rani", age := 30, phone_number := some "+15550001234" }

/-- IVR fixture state: patient 1 already holds a waiting token. -/
def ivrStateFix : IvrState :=
  { tokens := [waitingTok], patients := [ivrPatientFix] }

/-- Clinic table of the arrival fixture: clinic at latitude 10, longitude
20. -/
def clinicOfFix : Option Nat → Clinic :=
  fun _ => { latitude := some 10, longitude := some 20 }

/-- Clinic table for the zero-coordinate counterexample: clinic on the
equator at longitude 30. -/
def clinicOfEquator : Option Nat → Clinic :=
  fun _ => { latitude := some 0, longitude := some 30 }

/-! # Theorems -/

/-! ## Helper lemmas about `tokenSave` -/

/-- The clinic-defaulting step touches only `clinic`. -/
@[simp] theorem saveClinicStep_pk (dc : Nat → Option Nat) (t : Token) :
    (saveClinicStep dc t).pk = t.pk := by
  unfold saveClinicStep; split_ifs <;> rfl

@[simp] theorem saveClinicStep_status (dc : Nat → Option Nat) (t : Token) :
    (saveClinicStep dc t).status = t.status := by
  unfold saveClinicStep; split_ifs <;> rfl

@[simp] theorem saveClinicStep_appointment_time (dc : Nat → Option Nat)
    (t : Token) :
    (saveClinicStep dc t).appointment_time = t.appointment_time := by
  unfold saveClinicStep; split_ifs <;> rfl

@[simp] theorem saveClinicStep_token_number (dc : Nat → Option Nat)
    (t : Token) : (saveClinicStep dc t).token_number = t.token_number := by
  unfold saveClinicStep; split_ifs <;> rfl

@[simp] theorem saveClinicStep_completed_at (dc : Nat → Option Nat)
    (t : Token) : (saveClinicStep dc t).completed_at = t.completed_at := by
  unfold saveClinicStep; split_ifs <;> rfl

/-- The numbering step touches only `token_number`. -/
@[simp] theorem saveNumberStep_pk (db : List Token) (t : Token) :
    (saveNumberStep db t).pk = t.pk := by
  unfold saveNumberStep; split_ifs <;> rfl

@[simp] theorem saveNumberStep_status (db : List Token) (t : Token) :
    (saveNumberStep db t).status = t.status := by
  unfold saveNumberStep; split_ifs <;> rfl

@[simp] theorem saveNumberStep_appointment_time (db : List Token)
    (t : Token) :
    (saveNumberStep db t).appointment_time = t.appointment_time := by
  unfold saveNumberStep; split_ifs <;> rfl

@[simp] theorem saveNumberStep_completed_at (db : List Token) (t : Token) :
    (saveNumberStep db t).completed_at = t.completed_at := by
  unfold saveNumberStep; split_ifs <;> rfl

/-- The completion step touches only `completed_at`. -/
@[simp] theorem saveCompletedStep_pk (now : Int) (t : Token) :
    (saveCompletedStep now t).pk = t.pk := by
  unfold saveCompletedStep; split_ifs <;> rfl

@[simp] theorem saveCompletedStep_status (now : Int) (t : Token) :
    (saveCompletedStep now t).status = t.status := by
  unfold saveCompletedStep; split_ifs <;> rfl

@[simp] theorem saveCompletedStep_appointment_time (now : Int) (t : Token) :
    (saveCompletedStep now t).appointment_time = t.appointment_time := by
  unfold saveCompletedStep; split_ifs <;> rfl

@[simp] theorem saveCompletedStep_token_number (now : Int) (t : Token) :
    (saveCompletedStep now t).token_number = t.token_number := by
  unfold saveCompletedStep; split_ifs <;> rfl

/-- The numbering step gives a fresh walk-in instance a number. -/
theorem saveNumberStep_fresh_walk_in (db : List Token) (t : Token)
    (hpk : t.pk = none) (happ : t.appointment_time = none) :
    (saveNumberStep db t).token_number ≠ none := by
  unfold saveNumberStep
  split_ifs with hc
  · simp
  · intro hnone
    exact hc ⟨hpk, happ, hnone⟩

/-- `Token.save` never changes the status. -/
theorem tokenSave_status (db : List Token) (dc : Nat → Option Nat) (now : Int)
    (t : Token) : (tokenSave db dc now t).status = t.status := by
  simp [tokenSave]

/-- `Token.save` never changes the appointment time. -/
theorem tokenSave_appointment_time (db : List Token) (dc : Nat → Option Nat)
    (now : Int) (t : Token) :
    (tokenSave db dc now t).appointment_time = t.appointment_time := by
  simp [tokenSave]

/-- `Token.save` never changes the primary key. -/
theorem tokenSave_pk (db : List Token) (dc : Nat → Option Nat) (now : Int)
    (t : Token) : (tokenSave db dc now t).pk = t.pk := by
  simp [tokenSave]

/-- `Token.save` only ever turns a NULL `token_number` into a non-NULL
one. -/
theorem tokenSave_token_number (db : List Token) (dc : Nat → Option Nat)
    (now : Int) (t : Token) :
    (tokenSave db dc now t).token_number = t.token_number ∨
    ∃ s, (tokenSave db dc now t).token_number = some s := by
  simp only [tokenSave, saveCompletedStep_token_number]
  unfold saveNumberStep
  split_ifs <;> simp

/-! ## The slot grid -/

/-- The grid evaluated. -/
theorem allSlots_eq : allSlots =
    [540, 555, 570, 585, 600, 615, 630, 645, 660, 675, 690, 705, 720, 735,
     750, 765, 780, 795, 810, 825, 840, 855, 870, 885, 900, 915, 930, 945,
     960, 975, 990, 1005] := by
  decide

/-- C3: the full slot grid for any date consists precisely of the 15-minute
slots of the 09:00–17:00 window: formatted it is 09:00, 09:15, …, 16:45; it
has 32 slots; every slot starts at or after 09:00 (minute 540) and strictly
before 17:00 (minute 1020); and a minute below 17:00 is on the grid exactly
when it is at or after 09:00 and a multiple of 15 minutes.  The grid is the
constant `allSlots`, identical for every doctor, date and database state,
and `availableSlotsMinutes` only ever selects from it. -/
theorem slot_grid_is_0900_to_1700_quarter_hours :
    allSlots.map fmtHM =
      ["09:00", "09:15", "09:30", "09:45", "10:00", "10:15", "10:30", "10:45",
       "11:00", "11:15", "11:30", "11:45", "12:00", "12:15", "12:30", "12:45",
       "13:00", "13:15", "13:30", "13:45", "14:00", "14:15", "14:30", "14:45",
       "15:00", "15:15", "15:30", "15:45", "16:00", "16:15", "16:30", "16:45"] ∧
    allSlots.length = 32 ∧
    (∀ m ∈ allSlots, 540 ≤ m ∧ m < 1020) ∧
    (∀ m, m < 1020 → (m ∈ allSlots ↔ 540 ≤ m ∧ m % 15 = 0)) ∧
    (∀ db did d, availableSlotsMinutes db did d ⊆ allSlots) := by
  refine ⟨?_, ?_, ?_, ?_, ?_⟩
  · rw [allSlots_eq]; rfl
  · rw [allSlots_eq]; rfl
  · rw [allSlots_eq]; decide
  · rw [allSlots_eq]
    set_option maxRecDepth 4000 in decide
  · intro db did d m hm
    exact (List.mem_filter.mp hm).1

/-- Witness for `slot_grid_is_0900_to_1700_quarter_hours`: its bounded
characterisations applied at the concrete minute 555 (the 09:15 slot). -/
theorem slot_grid_witness :
    (540 ≤ 555 ∧ 555 < 1020) ∧ 555 ∈ allSlots := by
  have h := slot_grid_is_0900_to_1700_quarter_hours
  have hmem : 555 ∈ allSlots :=
    (h.2.2.2.1 555 (by decide)).mpr (by decide)
  exact ⟨h.2.2.1 555 hmem, hmem⟩

/-- C2: a slot is reported available by `_get_available_slots_for_doctor`
exactly when it is on the grid and no token of that doctor and date occupies
it with a status other than `cancelled` and `skipped`; the formatted result
is the minute-level list mapped through `strftime('%H:%M')`.  In
particular a slot that is booked fails the right-hand side, and once every
token occupying it is cancelled or skipped the right-hand side holds again,
so the slot is reported available again. -/
theorem slot_available_iff_not_actively_booked :
    (∀ (db : List Token) (did d m : Nat),
      m ∈ availableSlotsMinutes db did d ↔
        m ∈ allSlots ∧ ¬ ∃ t ∈ db, t.doctor = did ∧ t.date = d ∧
          t.appointment_time = some m ∧
          t.status ≠ "cancelled" ∧ t.status ≠ "skipped") ∧
    (∀ db did d, availableSlotsForDoctor db did d =
      (availableSlotsMinutes db did d).map fmtHM) := by
  refine ⟨fun db did d m => ?_, fun _ _ _ => rfl⟩
  simp only [availableSlotsMinutes, bookedSlots, isBookedTokenRow,
    List.mem_filter, List.contains, List.elem_eq_mem, Bool.not_eq_true',
    decide_eq_false_iff_not, List.mem_filterMap, Bool.and_eq_true,
    beq_iff_eq, bne_iff_ne, Bool.not_eq_true, Bool.or_eq_false_iff,
    beq_eq_false_iff_ne, ne_eq]
  constructor
  · rintro ⟨hmem, hb⟩
    refine ⟨hmem, ?_⟩
    rintro ⟨t, ht, hdoc, hdate, happ, hc, hs⟩
    exact hb ⟨t, ⟨ht, ⟨⟨hdoc, hdate⟩, by simp [happ]⟩, hc, hs⟩, happ⟩
  · rintro ⟨hmem, hno⟩
    refine ⟨hmem, ?_⟩
    rintro ⟨t, ⟨htdb, ⟨⟨hdoc, hdate⟩, _⟩, hc, hs⟩, happ⟩
    exact hno ⟨t, htdb, hdoc, hdate, happ, hc, hs⟩

/-! ## Sequential numbering (C1) -/

/-- C1 (bug): with walk-ins "1" … "10" present, the largest numeric token
number is 10 and sequential numbering requires "11"; but
`order_by('-token_number')` on the `CharField` is lexicographic, its
maximum is the string "9", and `Token.save` assigns "10" — a duplicate of
an existing number of the same clinic and day, violating the model's own
`unique_together ('token_number', 'clinic', 'date')` constraint. -/
theorem token_numbering_breaks_at_ten :
    maxTokenNumber (tenWalkIns.map (·.token_number)) = some "9" ∧
    nextTokenNumber tenWalkIns (some 1) 0 = "10" ∧
    (tokenSave tenWalkIns dcFix 0 freshWalkIn).token_number = some "10" ∧
    (tenWalkIns.map (·.token_number)).contains (some "10") = true := by
  refine ⟨by decide, by decide, by decide, by decide⟩

/-! ## Terminal statuses (C5) -/

/-- C5: `completed` and `cancelled` are terminal.  For a token in either
status, a status-update request through `TokenUpdateStatusView.patch`
returns an error and the row is returned entirely unchanged (in particular
`status` and `completed_at` keep their values), whatever status — present,
absent, listed or unlisted — was requested. -/
theorem completed_and_cancelled_are_terminal (db : List Token)
    (dc : Nat → Option Nat) (now : Int) (inst : Token)
    (new_status : Option String)
    (h : inst.status = "completed" ∨ inst.status = "cancelled") :
    (tokenUpdateStatusPatch db dc now inst new_status).isError = true ∧
    (tokenUpdateStatusPatch db dc now inst new_status).token = inst := by
  rcases new_status with _ | ns
  · exact ⟨rfl, rfl⟩
  · show ((if ns ∉ allowedStatuses then ⟨true, inst⟩
           else if inst.status = "completed" ∨ inst.status = "cancelled"
           then ⟨true, inst⟩ else _) : PatchResult).isError = true ∧
         ((if ns ∉ allowedStatuses then ⟨true, inst⟩
           else if inst.status = "completed" ∨ inst.status = "cancelled"
           then ⟨true, inst⟩ else _) : PatchResult).token = inst
    by_cases hmem : ns ∈ allowedStatuses
    · rw [if_neg (not_not_intro hmem), if_pos h]
      exact ⟨rfl, rfl⟩
    · rw [if_pos hmem]
      exact ⟨rfl, rfl⟩

/-- Witness for `completed_and_cancelled_are_terminal`: a concrete
completed token is frozen against a `waiting` request. -/
theorem completed_token_frozen_witness :
    (completedTok.status = "completed" ∨ completedTok.status = "cancelled") ∧
    (tokenUpdateStatusPatch [completedTok] dcFix 7 completedTok
        (some "waiting")).isError = true ∧
    (tokenUpdateStatusPatch [completedTok] dcFix 7 completedTok
        (some "waiting")).token = completedTok :=
  ⟨Or.inl rfl,
   completed_and_cancelled_are_terminal [completedTok] dcFix 7 completedTok
     (some "waiting") (Or.inl rfl)⟩

/-! ## Walk-in tokens always numbered (C8) -/

/-- C8: a token persisted through `Token.save` carries either a number or a
time slot.  For a fresh instance (`pk = none`, the only way a row enters
the table) a NULL `appointment_time` forces a non-NULL `token_number`
(auto-assigned when absent); and re-saving a row that already satisfies the
invariant preserves it.  Hence no saved token has both `token_number` and
`appointment_time` NULL. -/
theorem walk_in_tokens_always_numbered (db : List Token)
    (dc : Nat → Option Nat) (now : Int) (t : Token)
    (h : t.pk = none ∨ (t.appointment_time = none → t.token_number ≠ none)) :
    (tokenSave db dc now t).appointment_time = none →
    (tokenSave db dc now t).token_number ≠ none := by
  intro happ
  rw [tokenSave_appointment_time] at happ
  show (saveCompletedStep _ (saveNumberStep _ (saveClinicStep _ _))).token_number ≠ none
  rw [saveCompletedStep_token_number]
  rcases h with hpk | hinv
  · exact saveNumberStep_fresh_walk_in _ _ (by simpa using hpk)
      (by simpa using happ)
  · by_cases hc : (saveClinicStep dc t).pk = none ∧
        (saveClinicStep dc t).appointment_time = none ∧
        (saveClinicStep dc t).token_number = none
    · unfold saveNumberStep
      rw [if_pos hc]
      simp
    · unfold saveNumberStep
      rw [if_neg hc, saveClinicStep_token_number]
      exact hinv happ

/-- Witness for `walk_in_tokens_always_numbered`: a concrete fresh walk-in
instance gets a number. -/
theorem walk_in_numbered_witness :
    freshWalkIn.pk = none ∧
    (tokenSave [] dcFix 0 freshWalkIn).token_number ≠ none :=
  ⟨rfl, walk_in_tokens_always_numbered [] dcFix 0 freshWalkIn (Or.inl rfl)
    (by decide)⟩

/-! ## Behaviour of the status patch (helpers) -/

/-- A request without a `status` field is rejected (`None` is not in
`allowed_statuses`). -/
theorem tokenUpdateStatusPatch_no_status (db : List Token)
    (dc : Nat → Option Nat) (now : Int) (inst : Token) :
    tokenUpdateStatusPatch db dc now inst none = ⟨true, inst⟩ := rfl

/-- An unlisted status is rejected before anything is touched. -/
theorem tokenUpdateStatusPatch_not_allowed (db : List Token)
    (dc : Nat → Option Nat) (now : Int) (inst : Token) (s : String)
    (h : s ∉ allowedStatuses) :
    tokenUpdateStatusPatch db dc now inst (some s) = ⟨true, inst⟩ := by
  show (if s ∉ allowedStatuses then (⟨true, inst⟩ : PatchResult)
        else if inst.status = "completed" ∨ inst.status = "cancelled"
        then ⟨true, inst⟩ else _) = _
  rw [if_pos h]

/-- A `completed` or `cancelled` instance is frozen. -/
theorem tokenUpdateStatusPatch_frozen (db : List Token)
    (dc : Nat → Option Nat) (now : Int) (inst : Token) (s : String)
    (h : inst.status = "completed" ∨ inst.status = "cancelled") :
    tokenUpdateStatusPatch db dc now inst (some s) = ⟨true, inst⟩ := by
  show (if s ∉ allowedStatuses then (⟨true, inst⟩ : PatchResult)
        else if inst.status = "completed" ∨ inst.status = "cancelled"
        then ⟨true, inst⟩ else _) = _
  by_cases hmem : s ∈ allowedStatuses
  · rw [if_neg (not_not_intro hmem), if_pos h]
  · rw [if_pos hmem]

/-- `Token.save` stamps `completed_at` exactly on completed tokens lacking
one, and otherwise leaves it alone. -/
theorem tokenSave_completed_at (db : List Token) (dc : Nat → Option Nat)
    (now : Int) (t : Token) :
    (tokenSave db dc now t).completed_at =
      if t.status = "completed" ∧ t.completed_at = none then some now
      else t.completed_at := by
  unfold tokenSave saveCompletedStep
  split_ifs with h1 h2 h2 <;> simp_all

/-- A successful patch writes exactly the requested status and the matching
`completed_at`. -/
theorem tokenUpdateStatusPatch_success (db : List Token)
    (dc : Nat → Option Nat) (now : Int) (inst : Token) (s : String)
    (hmem : s ∈ allowedStatuses)
    (hterm : ¬ (inst.status = "completed" ∨ inst.status = "cancelled")) :
    tokenUpdateStatusPatch db dc now inst (some s) =
      ⟨false, { inst with
                status := s,
                completed_at := if s = "completed" then some now
                                else none }⟩ := by
  show (if s ∉ allowedStatuses then (⟨true, inst⟩ : PatchResult)
        else if inst.status = "completed" ∨ inst.status = "cancelled"
        then ⟨true, inst⟩ else _) = _
  rw [if_neg (not_not_intro hmem), if_neg hterm]
  by_cases hs : s = "completed" <;>
    simp [hs, tokenSave_status, tokenSave_completed_at]

/-! ## Completed timestamps (C9) -/

/-- C9: after `Token.save`, a `completed` status comes with a non-NULL
`completed_at` (stamped with the current time when it was NULL); and a
successful `TokenUpdateStatusView.patch` stamps `completed_at` on a
transition to `completed` and resets it to NULL on a transition to any
other status — so after either operation, `status = 'completed'` implies
`completed_at` is set. -/
theorem completed_status_implies_timestamp (db : List Token)
    (dc : Nat → Option Nat) (now : Int) :
    (∀ t : Token, (tokenSave db dc now t).status = "completed" →
       (tokenSave db dc now t).completed_at ≠ none) ∧
    (∀ (inst : Token) (ns : Option String),
       (tokenUpdateStatusPatch db dc now inst ns).isError = false →
       ((tokenUpdateStatusPatch db dc now inst ns).token.status =
            "completed" →
          (tokenUpdateStatusPatch db dc now inst ns).token.completed_at =
            some now) ∧
       ((tokenUpdateStatusPatch db dc now inst ns).token.status ≠
            "completed" →
          (tokenUpdateStatusPatch db dc now inst ns).token.completed_at =
            none)) := by
  constructor
  · intro t h
    rw [tokenSave_status] at h
    rw [tokenSave_completed_at]
    split_ifs with hc
    · simp
    · intro hnone
      exact hc ⟨h, hnone⟩
  · intro inst ns herr
    rcases ns with _ | s
    · exact absurd herr (by simp [tokenUpdateStatusPatch_no_status])
    · by_cases hmem : s ∈ allowedStatuses
      · by_cases hterm : inst.status = "completed" ∨ inst.status = "cancelled"
        · rw [tokenUpdateStatusPatch_frozen db dc now inst s hterm] at herr
          exact absurd herr (by simp)
        · rw [tokenUpdateStatusPatch_success db dc now inst s hmem hterm]
          by_cases hs : s = "completed" <;> simp [hs]
      · rw [tokenUpdateStatusPatch_not_allowed db dc now inst s hmem] at herr
        exact absurd herr (by simp)

/-- Witness for `completed_status_implies_timestamp`: a concrete save of a
completed token without a timestamp, and a concrete patch of a waiting
token to `completed`. -/
theorem completed_timestamp_witness :
    (tokenSave [] dcFix 3 { completedTok with completed_at := none }).status =
        "completed" ∧
    (tokenSave [] dcFix 3
        { completedTok with completed_at := none }).completed_at ≠ none ∧
    (tokenUpdateStatusPatch [waitingTok] dcFix 9 waitingTok
        (some "completed")).isError = false ∧
    (tokenUpdateStatusPatch [waitingTok] dcFix 9 waitingTok
        (some "completed")).token.completed_at = some 9 := by
  have h := completed_status_implies_timestamp [] dcFix 3
  have h2 := completed_status_implies_timestamp [waitingTok] dcFix 9
  refine ⟨by decide, h.1 _ (by decide), by decide, ?_⟩
  exact (h2.2 waitingTok (some "completed") (by decide)).1 (by decide)

/-! ## Initial statuses at issuance (C6) and the IVR active-token gate
(C7) -/

/-- The slot-search-and-book phase never reports an existing active
appointment. -/
theorem ivrBookSlot_ne_alreadyActive (tokens : List Token) (doctor : Doctor)
    (pid today nowMin : Nat) (now : Int) :
    (ivrBookSlot tokens doctor pid today nowMin now).1 ≠
      IvrOutcome.alreadyActive := by
  unfold ivrBookSlot
  rcases hf : findNextAvailableSlot tokens doctor.id today nowMin
    with _ | ⟨d, m⟩ <;> simp

/-- A token booked by the slot-search-and-book phase starts out waiting. -/
theorem ivrBookSlot_booked_status (tokens : List Token) (doctor : Doctor)
    (pid today nowMin : Nat) (now : Int) (t : Token)
    (h : (ivrBookSlot tokens doctor pid today nowMin now).1 =
      IvrOutcome.booked t) : t.status = "waiting" := by
  unfold ivrBookSlot at h
  rcases hf : findNextAvailableSlot tokens doctor.id today nowMin
    with _ | ⟨d, m⟩ <;> rw [hf] at h
  · simp at h
  · simp at h
    subst h
    simp [tokenCreate, tokenSave_status]

/-- C6 (counterexample): a receptionist walk-in creation (no appointment
time) issues a token whose initial status is `confirmed`, not `waiting` —
`TokenListCreate.post` deliberately sets
`'waiting' if appointment_time else 'confirmed'`. -/
theorem receptionist_walk_in_starts_confirmed :
    ((receptionistCreateToken [] dcFix 0 7 docFix none 0).token.map
        (·.status)) = some "confirmed" ∧
    some "confirmed" ≠ some "waiting" :=
  ⟨by decide, by decide⟩

/-- C6 (amended): tokens from patient self-booking
(`PatientCreateTokenView.post`) and from the IVR flow
(`create_and_speak_token`) begin in `waiting`; a receptionist-created token
(`TokenListCreate.post`) begins in `waiting` when an appointment time is
given and in `confirmed` for a walk-in without one. -/
theorem token_initial_status_by_path :
    (∀ (db : List Token) (dc : Nat → Option Nat) (now : Int)
       (pid : Nat) (doctor : Doctor) (apptDate apptTime today : Nat)
       (t : Token),
       (patientCreateTokenPost db dc now pid doctor apptDate apptTime
           today).token = some t → t.status = "waiting") ∧
    (∀ (st : IvrState) (doctor : Doctor) (phone : String)
       (today nowMin : Nat) (now : Int) (t : Token) (st' : IvrState),
       createAndSpeakToken st doctor phone today nowMin now =
         (IvrOutcome.booked t, st') → t.status = "waiting") ∧
    (∀ (db : List Token) (dc : Nat → Option Nat) (now : Int)
       (pid : Nat) (doctor : Doctor) (appt : Option Nat) (today : Nat)
       (t : Token),
       (receptionistCreateToken db dc now pid doctor appt today).token =
           some t →
       t.status = if appt ≠ none then "waiting" else "confirmed") := by
  refine ⟨?_, ?_, ?_⟩
  · intro db dc now pid doctor apptDate apptTime today t h
    unfold patientCreateTokenPost at h
    split_ifs at h
    · simp only [CreateResult.token, Option.some.injEq] at h
      rw [← h]
      simp [tokenCreate, tokenSave_status]
  · intro st doctor phone today nowMin now t st' h
    simp only [createAndSpeakToken] at h
    split_ifs at h
    · simp at h
    · simp only [Prod.mk.injEq] at h
      exact ivrBookSlot_booked_status st.tokens doctor _ today nowMin now t
        h.1
  · intro db dc now pid doctor appt today t h
    unfold receptionistCreateToken at h
    split_ifs at h with h1 h2 h3
    · simp only [CreateResult.token, Option.some.injEq] at h
      rw [← h]
      simp [tokenCreate, tokenSave_status, h3]
    · simp only [CreateResult.token, Option.some.injEq] at h
      rw [← h]
      simp [tokenCreate, tokenSave_status, h3]

/-- Witness for `token_initial_status_by_path`: a concrete self-booking and
a concrete receptionist booking with a time slot both start waiting. -/
theorem token_initial_status_witness :
    ((patientCreateTokenPost [] dcFix 0 3 docFix 5 540 0).token.map
        (·.status)) = some "waiting" ∧
    ((receptionistCreateToken [] dcFix 0 7 docFix (some 540) 0).token.map
        (·.status)) = some "waiting" := by
  have h := token_initial_status_by_path
  constructor
  · have h1 := h.1 [] dcFix 0 3 docFix 5 540 0 _ rfl
    exact congrArg some h1
  · have h2 := h.2.2 [] dcFix 0 7 docFix (some 540) 0 _ rfl
    rw [if_pos (by decide)] at h2
    exact congrArg some h2

/-- C7: the IVR booking flow refuses a caller who already holds an active
token (status outside `completed`/`cancelled`/`skipped`) on any date:
nothing in the database changes and the caller is told an active
appointment already exists; a caller without such a token passes the gate
into the slot search. -/
theorem ivr_refuses_second_active_booking (st : IvrState) (doctor : Doctor)
    (phone : String) (today nowMin : Nat) (now : Int) (p : Patient)
    (hp : lookupPatientByPhone st.patients phone = some p) :
    (hasActiveAnyDay st.tokens p.id = true →
       createAndSpeakToken st doctor phone today nowMin now =
         (IvrOutcome.alreadyActive, st)) ∧
    (hasActiveAnyDay st.tokens p.id = false →
       (createAndSpeakToken st doctor phone today nowMin now).1 ≠
         IvrOutcome.alreadyActive) := by
  have hres : ivrResolvePatient st.patients phone = (p, st.patients) := by
    unfold ivrResolvePatient
    rw [hp]
  constructor
  · intro hact
    simp only [createAndSpeakToken, hres, hact]
    rfl
  · intro hact
    simp only [createAndSpeakToken, hres, hact]
    simpa using ivrBookSlot_ne_alreadyActive st.tokens doctor p.id today
      nowMin now

/-- Witness for `ivr_refuses_second_active_booking`: the fixture caller
already holds a waiting token, so the concrete IVR call is refused with the
state unchanged. -/
theorem ivr_refusal_witness :
    lookupPatientByPhone ivrStateFix.patients "+15550001234" =
        some ivrPatientFix ∧
    hasActiveAnyDay ivrStateFix.tokens ivrPatientFix.id = true ∧
    createAndSpeakToken ivrStateFix docFix "+15550001234" 0 540 0 =
      (IvrOutcome.alreadyActive, ivrStateFix) := by
  have h := ivr_refuses_second_active_booking ivrStateFix docFix
    "+15550001234" 0 540 0 ivrPatientFix (by rfl)
  exact ⟨by rfl, by decide, h.1 (by decide)⟩

/-! ## Cancelled bookings still block the unique constraint (C10) -/

/-- C10: a reachable state — a cancelled token occupying doctor 1's 09:00
slot on day 5 — in which the slot is reported available (cancelled tokens
are excluded from availability), `PatientCreateTokenView`'s checks all
pass and a token is created, yet the created token collides with the
cancelled row under the model's `unique_together ('doctor', 'date',
'appointment_time')`, which ranges over all tokens; the INSERT therefore
fails at the database. -/
theorem cancelled_slot_passes_check_but_violates_unique :
    (9 * 60) ∈ availableSlotsMinutes [cancelledTok] 1 5 ∧
    "09:00" ∈ availableSlotsForDoctor [cancelledTok] 1 5 ∧
    (patientCreateTokenPost [cancelledTok] dcFix 0 3 docFix 5 (9 * 60)
        5).isError = false ∧
    ((patientCreateTokenPost [cancelledTok] dcFix 0 3 docFix 5 (9 * 60)
        5).token.map (fun t => violatesDoctorSlotUnique [cancelledTok] t)) =
      some true :=
  ⟨by decide, by decide, by decide, by decide⟩

/-! ## Haversine distance gating (C4) -/

/-- `atan2 0 1 = 0` (the value reached when the two points coincide). -/
theorem atan2_zero_one : atan2 0 1 = 0 := by
  unfold atan2
  rw [if_pos (by norm_num : (0 : ℝ) < 1)]
  simp [Real.arctan_zero]

/-- The haversine distance from a point to itself is zero. -/
theorem haversine_self (lat lon : ℝ) :
    haversine_distance lat lon lat lon = 0 := by
  unfold haversine_distance
  simp only [sub_self, zero_div, Real.sin_zero, ne_eq, OfNat.ofNat_ne_zero,
    not_false_eq_true, zero_pow, mul_zero, add_zero, Real.sqrt_zero,
    sub_zero, Real.sqrt_one, atan2_zero_one]

/-- Every row of the UPDATE result is the written row or an untouched row
with a different primary key. -/
theorem updateByPk_mem (db : List Token) (t' u : Token)
    (hu : u ∈ updateByPk db t') :
    u = t' ∨ (u ∈ db ∧ (u.pk == t'.pk) = false) := by
  unfold updateByPk at hu
  obtain ⟨x, hx, rfl⟩ := List.mem_map.mp hu
  by_cases c : (x.pk == t'.pk) = true <;> simp [c, hx]

/-- C4 (amended): for an arrival-confirmation request that reaches the
distance gate — the requester is a patient, both reported coordinates are
present and nonzero, exactly one `waiting` token exists for today, the
arrival window holds when that token has an appointment time, and the
clinic's coordinates are configured and nonzero — the token's status is
set to `confirmed` if and only if the haversine distance (Earth radius
6371 km) between the reported and clinic coordinates is at most 1.0 km;
beyond 1.0 km the view answers with an error and the token's status
remains `waiting`. -/
theorem arrival_confirmed_iff_within_1km (db : List Token)
    (dc : Nat → Option Nat) (clinicOf : Option Nat → Clinic) (pid : Nat)
    (la lo clat clon : ℝ) (today : Nat) (nowAbs : Int) (t : Token)
    (hla : la ≠ 0) (hlo : lo ≠ 0)
    (hfilter : db.filter (isWaitingTodayRow pid today) = [t])
    (hwin : t.appointment_time = none ∨
      ∃ m, t.appointment_time = some m ∧
        (t.date : Int) * 1440 + m - 20 ≤ nowAbs ∧
        nowAbs ≤ (t.date : Int) * 1440 + m + 15)
    (hclat : (clinicOf t.clinic).latitude = some clat) (hclat0 : clat ≠ 0)
    (hclon : (clinicOf t.clinic).longitude = some clon) (hclon0 : clon ≠ 0) :
    ((confirmArrivalPost db dc clinicOf true pid (some la) (some lo) today
        nowAbs).1 = ArrivalResp.arrivalConfirmed ↔
      haversine_distance la lo clat clon ≤ 1) ∧
    (1 < haversine_distance la lo clat clon →
      (confirmArrivalPost db dc clinicOf true pid (some la) (some lo) today
          nowAbs).1 = ArrivalResp.tooFar ∧
      ∀ u ∈ (confirmArrivalPost db dc clinicOf true pid (some la) (some lo)
          today nowAbs).2, u.pk = t.pk → u.status = "waiting") ∧
    (haversine_distance la lo clat clon ≤ 1 →
      ∀ u ∈ (confirmArrivalPost db dc clinicOf true pid (some la) (some lo)
          today nowAbs).2, u.pk = t.pk → u.status = "confirmed") := by
  have htrow : isWaitingTodayRow pid today t = true := by
    have : t ∈ db.filter (isWaitingTodayRow pid today) := by
      rw [hfilter]; exact List.mem_singleton.mpr rfl
    exact (List.mem_filter.mp this).2
  have htwait : t.status = "waiting" := by
    unfold isWaitingTodayRow at htrow
    simp only [Bool.and_eq_true, beq_iff_eq] at htrow
    exact htrow.2
  have hmain : confirmArrivalPost db dc clinicOf true pid (some la) (some lo)
      today nowAbs =
      (if 1 < haversine_distance la lo clat clon then
        (ArrivalResp.tooFar, updateByPk db (tokenSave db dc nowAbs
          { t with
            distance_km :=
              some (pyRound2 (haversine_distance la lo clat clon)) }))
      else
        (ArrivalResp.arrivalConfirmed, updateByPk db (tokenSave db dc nowAbs
          { t with
            distance_km :=
              some (pyRound2 (haversine_distance la lo clat clon)),
            status := "confirmed" }))) := by
    unfold confirmArrivalPost
    rw [if_neg (by simp [hla, hlo]), if_neg (by simp)]
    rw [hfilter]
    dsimp only
    have hwinok : (match t.appointment_time with
        | none => True
        | some m =>
          (t.date : Int) * 1440 + m - 20 ≤ nowAbs ∧
          nowAbs ≤ (t.date : Int) * 1440 + m + 15) := by
      rcases hwin with h0 | ⟨m, hm, h1, h2⟩
      · rw [h0]; trivial
      · rw [hm]; exact ⟨h1, h2⟩
    rw [if_neg (not_not_intro ?_)]
    swap
    · exact hwinok
    rw [hclat, hclon]
    rw [if_neg (by simp [hclat0, hclon0])]
    simp only [Option.getD_some]
  rw [hmain]
  by_cases hd : 1 < haversine_distance la lo clat clon
  · rw [if_pos hd]
    refine ⟨?_, ?_, ?_⟩
    · constructor
      · intro habs
        exact ArrivalResp.noConfusion habs
      · intro hle
        exact absurd hle (not_le.mpr hd)
    · intro _
      refine ⟨rfl, ?_⟩
      intro u hu hupk
      rcases updateByPk_mem _ _ _ hu with rfl | ⟨_, hne⟩
      · rw [tokenSave_status]
        exact htwait
      · rw [tokenSave_pk] at hne
        simp only [beq_eq_false_iff_ne, ne_eq] at hne
        exact absurd hupk hne
    · intro hle
      exact absurd hle (not_le.mpr hd)
  · rw [if_neg hd]
    refine ⟨?_, ?_, ?_⟩
    · simp only [true_iff]
      exact not_lt.mp hd
    · intro habs
      exact absurd habs hd
    · intro _
      intro u hu hupk
      rcases updateByPk_mem _ _ _ hu with rfl | ⟨_, hne⟩
      · rw [tokenSave_status]
      · rw [tokenSave_pk] at hne
        simp only [beq_eq_false_iff_ne, ne_eq] at hne
        exact absurd hupk hne

/-- C4 (counterexample): a patient holding a waiting token for today
reports the coordinates (0, 30) — exactly the clinic's equator location,
distance 0 ≤ 1 km — yet `not all([user_lat, user_lon])` treats the 0.0
latitude as missing, the view answers 'Location data is required' and the
token stays `waiting`; so "confirmed iff within 1 km" fails as stated. -/
theorem arrival_zero_latitude_rejected_within_range :
    haversine_distance 0 30 0 30 = 0 ∧ ((0 : ℝ) ≤ 1) ∧
    (confirmArrivalPost [waitingTok] dcFix clinicOfEquator true 1 (some 0)
        (some 30) 0 0).1 = ArrivalResp.missingLocation ∧
    (confirmArrivalPost [waitingTok] dcFix clinicOfEquator true 1 (some 0)
        (some 30) 0 0).2 = [waitingTok] ∧
    ArrivalResp.missingLocation ≠ ArrivalResp.arrivalConfirmed ∧
    waitingTok.status = "waiting" ∧ waitingTok.date = 0 := by
  refine ⟨haversine_self 0 30, by norm_num, ?_, ?_, by decide, rfl, rfl⟩
  · unfold confirmArrivalPost
    rw [if_pos (Or.inr (Or.inl rfl))]
  · unfold confirmArrivalPost
    rw [if_pos (Or.inr (Or.inl rfl))]

/-- Witness for `arrival_confirmed_iff_within_1km`: a request from the
clinic's own coordinates (distance 0) is confirmed. -/
theorem arrival_gate_witness :
    ([waitingTok].filter (isWaitingTodayRow 1 0) = [waitingTok]) ∧
    (confirmArrivalPost [waitingTok] dcFix clinicOfFix true 1 (some 10)
        (some 20) 0 0).1 = ArrivalResp.arrivalConfirmed := by
  have h := arrival_confirmed_iff_within_1km [waitingTok] dcFix clinicOfFix 1
    10 20 10 20 0 0 waitingTok (by norm_num) (by norm_num) rfl (Or.inl rfl)
    rfl (by norm_num) rfl (by norm_num)
  refine ⟨rfl, ?_⟩
  exact h.1.mpr (by rw [haversine_self]; norm_num)
